import Mathlib

/-
Verification development for the glm-converter searcher demos
(demos/glm-converter/searcher.py, subscription-searcher.py and
flashbots-searcher.py).

The Python code is embedded shallowly:

* Python strings are Lean `String`s; Python slicing `s[n:]` / `s[:n]` is
  code-point based, modelled by `pyDrop` / `pyTake` over `String.data`.
* Python exceptions are modelled with `Except String`: a `.error` value is
  an exception propagating out of the embedded function.
* External collaborators excluded by the design (the ABI machinery
  `function_abi_to_4byte_selector` and `w3.codec.decode`, the chain RPC,
  the relay) are parameters of the embedded functions: a `Selector` maps
  an ABI error entry to its 4-byte selector rendered in hex, and a
  `Codec` decodes a byte payload against a list of collapsed type
  strings, possibly raising.  `bytes.fromhex` is concrete (`bytesFromHex`).
* The outcome of each external call made by the code (the simulated
  `buy` call, `build_transaction`, `send_bundle` / `receipts`) is an
  explicit input describing what the outside world answered.
-/

/-- Python slicing `s[n:]` (by code points). -/
def pyDrop (s : String) (n : Nat) : String := ⟨s.data.drop n⟩

/-- Python slicing `s[:n]` (by code points); `s[a:b]` is `pyTake (pyDrop s a) (b - a)`. -/
def pyTake (s : String) (n : Nat) : String := ⟨s.data.take n⟩

/-- Python `str.casefold` restricted to ASCII (hex strings only): lower-case each char. -/
def casefold (s : String) : String := ⟨s.data.map Char.toLower⟩

/-- Value of one hexadecimal digit, as accepted by Python `bytes.fromhex`. -/
def hexDigitVal (c : Char) : Option Nat :=
  if '0' ≤ c ∧ c ≤ '9' then some (c.toNat - '0'.toNat)
  else if 'a' ≤ c ∧ c ≤ 'f' then some (c.toNat - 'a'.toNat + 10)
  else if 'A' ≤ c ∧ c ≤ 'F' then some (c.toNat - 'A'.toNat + 10)
  else none

/-- Python `bytes.fromhex` over the character list: consumes pairs of hex
digits; fails (raises `ValueError`) on an odd-length input or a non-hex
character. -/
def bytesFromHexAux : List Char → Option (List Nat)
  | [] => some []
  | [_] => none
  | c1 :: c2 :: rest => do
    let h ← hexDigitVal c1
    let l ← hexDigitVal c2
    let t ← bytesFromHexAux rest
    pure ((16 * h + l) :: t)

/-- Python `bytes.fromhex`. -/
def bytesFromHex (s : String) : Option (List Nat) := bytesFromHexAux s.data

/-- Lower-case hex digit for a value below 16. -/
def hexDigitChar (n : Nat) : Char :=
  if n < 10 then Char.ofNat ('0'.toNat + n) else Char.ofNat ('a'.toNat + n - 10)

/-- Bytes rendered as a lower-case hex character list (Python `bytes.hex()`). -/
def hexEncodeL : List Nat → List Char
  | [] => []
  | b :: rest => hexDigitChar (b / 16) :: hexDigitChar (b % 16) :: hexEncodeL rest

/-- Bytes rendered as a lower-case hex string. -/
def hexEncode (bs : List Nat) : String := ⟨hexEncodeL bs⟩

/-- One entry of a contract ABI table as the demos declare it: the JSON
`type` field, the `name`, and the (already collapsed, cf.
`collapse_if_tuple`) input type strings. -/
structure AbiEntry where
  type_ : String
  name : String
  inputs : List String
  deriving Repr, DecidableEq

/-- `conv_abi` of flashbots-searcher.py: five parameterless custom errors
and two functions. -/
def conv_abi : List AbiEntry :=
  [⟨"error", "Transformer__SoftwareError", []⟩,
   ⟨"error", "Transformer__SpendingTooMuch", []⟩,
   ⟨"error", "Transformer__WrongHeight", []⟩,
   ⟨"error", "Transformer__RandomnessAlreadyUsed", []⟩,
   ⟨"error", "Transformer__RandomnessUnsafeSeed", []⟩,
   ⟨"function", "buy", ["uint256"]⟩,
   ⟨"function", "getRandomNumber", ["uint256"]⟩]

/-- A Python value decoded by the ABI codec. -/
inductive PyValue where
  | int (n : Int)
  | bool (b : Bool)
  | str (s : String)
  deriving Repr, DecidableEq

/-- Python `str(x)` on a decoded value. -/
def pyStr : PyValue → String
  | .int n => toString n
  | .bool true => "True"
  | .bool false => "False"
  | .str s => s

/-- Model of `function_abi_to_4byte_selector(error).hex()`: the 4-byte
selector of an ABI entry, rendered in hex (an external collaborator of
the core, so a parameter of the embedding). -/
abbrev Selector := AbiEntry → String

/-- Model of `w3.codec.decode(data_types, bytes)`: decode a byte payload
against collapsed type strings; `.error` is a raised exception. -/
abbrev Codec := List String → List Nat → Except String (List PyValue)

/-- Does an ABI error entry's selector match the error data?  The code
compares `error_signature_hex.casefold()` with
`str(error_data.data)[2:10].casefold()`. -/
def matchesSelector (sel : Selector) (e : AbiEntry) (error_data : String) : Bool :=
  casefold (sel e) == casefold (pyTake (pyDrop error_data 2) 8)

/-- Body of the matched branch of `decode_custom_error`:
`bytes.fromhex(str(error_data.data)[10:])`, decode via the codec, then
render `"%s(%s)" % (name, ",".join(str(x) for x in values))`.
A `.error` models an exception raised inside the branch. -/
def decode_matched_error (codec : Codec) (e : AbiEntry) (error_data : String) :
    Except String String :=
  match bytesFromHex (pyDrop error_data 10) with
  | none => .error "ValueError"
  | some bs =>
    match codec e.inputs bs with
    | .error m => .error m
    | .ok vals =>
      .ok (e.name ++ "(" ++ String.intercalate "," (vals.map pyStr) ++ ")")

/-- The result of handling one matched registry entry, lifted to the
decoder's return type. -/
def entryResult (codec : Codec) (e : AbiEntry) (error_data : String) :
    Except String (Option String) :=
  match decode_matched_error codec e error_data with
  | .error m => .error m
  | .ok s => .ok (some s)

/-- The `for error in [...]` loop of `decode_custom_error`: first entry
whose selector matches wins; falling off the end returns `None`. -/
def decodeLoop (sel : Selector) (codec : Codec) (errors : List AbiEntry)
    (error_data : String) : Except String (Option String) :=
  match errors with
  | [] => .ok none
  | e :: rest =>
    if matchesSelector sel e error_data then entryResult codec e error_data
    else decodeLoop sel codec rest error_data

/-- `decode_custom_error(w3, contract_abi, error_data)` (identical in
searcher.py, subscription-searcher.py and flashbots-searcher.py): filter
the ABI for `type == "error"` entries and scan them in order. -/
def decode_custom_error (sel : Selector) (codec : Codec)
    (contract_abi : List AbiEntry) (error_data : String) :
    Except String (Option String) :=
  decodeLoop sel codec (contract_abi.filter (fun a => a.type_ == "error")) error_data

/-- Outcome of the simulated `converter.functions.buy(...).call(...)`
invocation, as answered by the chain (an input of the embedding).  A
`ContractCustomError` carries `.data` (hex string) and its `str(exp)`
message; a `ContractLogicError` carries only `str(exp)`. -/
inductive CallOutcome where
  | success
  | contractCustomError (data : String) (msg : String)
  | contractLogicError (msg : String)
  | otherError
  deriving Repr, DecidableEq

/-- The engine's per-height simulation result (spec `SimulationResult`);
`reason` is the Python `failure_reason` variable, `none` when it is
`None`. -/
inductive SimResult where
  | eligible
  | ineligible (reason : Option String)
  deriving Repr, DecidableEq

/-- The `try: converter.functions.buy(...).call(...)` block of
`try_to_buy`: success sets `can_buy`; `ContractCustomError` is decoded
via `decode_custom_error` (which may itself raise, propagating);
`ContractLogicError` keeps the raw message; a bare `except` yields
`"generic"`. -/
def simulate_buy (sel : Selector) (codec : Codec) (abi : List AbiEntry) :
    CallOutcome → Except String SimResult
  | .success => .ok .eligible
  | .contractCustomError d _ =>
    match decode_custom_error sel codec abi d with
    | .error m => .error m
    | .ok r => .ok (.ineligible r)
  | .contractLogicError m => .ok (.ineligible (some m))
  | .otherError => .ok (.ineligible (some "generic"))

/-- How one call to a submit strategy ends, seen from the process:
`cont` — the function returns and the event loop continues at the next
height; `exitCode c` — the code called `exit(c)`; `uncaught m` — an
exception escaped the function.  In flashbots-searcher.py neither
`get_event` (whose only `try` wraps `ws.recv`) nor `main` catches
anything around `try_to_buy`, so an `uncaught` exception terminates the
process. -/
inductive ProcResult where
  | cont
  | exitCode (c : Nat)
  | uncaught (msg : String)
  deriving Repr, DecidableEq

/-- Does the process die (either via `exit` or via an exception
propagating out of the event loop)? -/
def terminates : ProcResult → Bool
  | .cont => false
  | .exitCode _ => true
  | .uncaught _ => true

/-- `w3.to_wei(n, "gwei")`. -/
def to_wei_gwei (n : Nat) : Nat := n * 1000000000

/-- The dict passed to `build_transaction`: sender, nonce and the two
optional EIP-1559 fee fields (absent keys are `none`). -/
structure TxRequest where
  sender : String
  nonce : Nat
  maxFeePerGas : Option Nat
  maxPriorityFeePerGas : Option Nat
  deriving Repr, DecidableEq

/-- How the `try` block of `submit_mempool` (build + sign +
`send_raw_transaction`) ends, as answered by the outside world. -/
inductive MempoolStep where
  | sent
  | custom (data : String)
  | logic (msg : String)
  | base (msg : String)
  deriving Repr, DecidableEq

/-- Observable record of one `submit_mempool` run. -/
structure MempoolRun where
  buyArg : Int
  request : TxRequest
  result : ProcResult
  deriving Repr, DecidableEq

/-- `submit_mempool(converter, w3, height)` of flashbots-searcher.py:
builds `buy(height - 1)` with only `from` and `nonce` set (both fee
lines are commented out in the source), then signs and broadcasts.
`ContractCustomError` is decoded and the process exits with status 1;
`ContractLogicError` and `BaseException` are logged and swallowed. -/
def submit_mempool (sender : String) (nonce : Nat) (sel : Selector) (codec : Codec)
    (height : Int) (step : MempoolStep) : MempoolRun :=
  { buyArg := height - 1
    request :=
      { sender := sender, nonce := nonce
        maxFeePerGas := none, maxPriorityFeePerGas := none }
    result :=
      match step with
      | .sent => .cont
      | .custom d =>
        match decode_custom_error sel codec conv_abi d with
        | .error m => .uncaught m
        | .ok _ => .exitCode 1
      | .logic _ => .cont
      | .base _ => .cont }

/-- How the build `try` block of `submit_flashbots` ends. -/
inductive FbBuildStep where
  | ok
  | custom (data : String)
  | logic (msg : String)
  | base (msg : String)
  deriving Repr, DecidableEq

/-- What happens after `send_bundle`: the bundle's transaction is found
in a receipt (`mined`), the receipt lookup raises `TransactionNotFound`
(`notFound`), or some other exception with an RPC error code is raised
anywhere in `send_bundle` / stats / `wait()` / `receipts()`
(`raised`). -/
inductive RelayStep where
  | mined (blockNumber : Int)
  | notFound
  | raised (code : Int) (msg : String)
  deriving Repr, DecidableEq

/-- The arguments of the `w3.flashbots.send_bundle` call: how many signed
transactions the bundle holds and the `target_block_number`. -/
structure BundleCall where
  txCount : Nat
  targetBlockNumber : Int
  deriving Repr, DecidableEq

/-- Observable record of one `submit_flashbots` run; `sent` is `none`
when the build failed before `send_bundle` was reached. -/
structure FlashbotsRun where
  buyArg : Int
  request : TxRequest
  sent : Option BundleCall
  result : ProcResult
  deriving Repr, DecidableEq

/-- `submit_flashbots(converter, w3, height)` of flashbots-searcher.py:
builds `buy(height - 1)` with `maxFeePerGas = to_wei(400, "gwei")` and
`maxPriorityFeePerGas = w3.eth.max_priority_fee + to_wei(10, "gwei")`.
On `ContractCustomError` during build it decodes and exits with status
1; `ContractLogicError` / `BaseException` return (loop continues).  On a
successful build it sends a one-transaction bundle targeting
`height + 1`, waits, and fetches receipts: `TransactionNotFound` is
caught and logged (bundle not included — function returns normally);
every other exception after the build block is uncaught. -/
def submit_flashbots (sender : String) (nonce max_pri_gas : Nat)
    (sel : Selector) (codec : Codec) (height : Int)
    (build : FbBuildStep) (relay : RelayStep) : FlashbotsRun :=
  let request : TxRequest :=
    { sender := sender, nonce := nonce
      maxFeePerGas := some (to_wei_gwei 400)
      maxPriorityFeePerGas := some (max_pri_gas + to_wei_gwei 10) }
  match build with
  | .custom d =>
    { buyArg := height - 1, request := request, sent := none
      result :=
        match decode_custom_error sel codec conv_abi d with
        | .error m => .uncaught m
        | .ok _ => .exitCode 1 }
  | .logic _ => { buyArg := height - 1, request := request, sent := none, result := .cont }
  | .base _ => { buyArg := height - 1, request := request, sent := none, result := .cont }
  | .ok =>
    { buyArg := height - 1, request := request
      sent := some { txCount := 1, targetBlockNumber := height + 1 }
      result :=
        match relay with
        | .mined _ => .cont
        | .notFound => .cont
        | .raised _ m => .uncaught m }

/-- Observable record of one `try_to_buy` run of flashbots-searcher.py. -/
structure TryToBuyRun where
  simArg : Int
  sim : Except String SimResult
  mempoolRun : Option MempoolRun
  flashbotsRun : Option FlashbotsRun
  result : ProcResult
  deriving Repr

/-- `try_to_buy(converter, w3, height, use_mempool)` of
flashbots-searcher.py: simulate `buy(height - 1)` via `call(...)`; when
ineligible return the failure reason (the caller discards it, the loop
continues); when eligible dispatch to `submit_mempool` or
`submit_flashbots` according to the flag. -/
def try_to_buy (sender : String) (nonce max_pri_gas : Nat)
    (sel : Selector) (codec : Codec) (height : Int) (use_mempool : Bool)
    (callOut : CallOutcome) (mstep : MempoolStep)
    (fbuild : FbBuildStep) (relay : RelayStep) : TryToBuyRun :=
  match simulate_buy sel codec conv_abi callOut with
  | .error m =>
    { simArg := height - 1, sim := .error m
      mempoolRun := none, flashbotsRun := none, result := .uncaught m }
  | .ok .eligible =>
    if use_mempool then
      let mr := submit_mempool sender nonce sel codec height mstep
      { simArg := height - 1, sim := .ok .eligible
        mempoolRun := some mr, flashbotsRun := none, result := mr.result }
    else
      let fr := submit_flashbots sender nonce max_pri_gas sel codec height fbuild relay
      { simArg := height - 1, sim := .ok .eligible
        mempoolRun := none, flashbotsRun := some fr, result := fr.result }
  | .ok (.ineligible r) =>
    { simArg := height - 1, sim := .ok (.ineligible r)
      mempoolRun := none, flashbotsRun := none, result := .cont }

/-- One iteration of `loop(converter, w3, state)` of searcher.py,
restricted to the height gate: if the latest height equals
`state["height"]` the function returns immediately (no evaluation cycle
runs); otherwise the state is updated and the evaluation cycle (the same
simulate/submit pipeline) runs.  Returns the new state and whether an
evaluation cycle ran. -/
def searcher_loop_step (state current : Int) : Int × Bool :=
  if current = state then (state, false) else (current, true)

/-- Driving searcher.py's `loop` over a list of delivered latest heights,
starting from a given `state["height"]` (initialised to 0 by `run`):
the list of heights for which an evaluation cycle ran. -/
def searcher_run (state : Int) : List Int → List Int
  | [] => []
  | h :: rest =>
    match searcher_loop_step state h with
    | (s, true) => h :: searcher_run s rest
    | (s, false) => searcher_run s rest

/-- The inner `while True` of `get_event` in flashbots-searcher.py (and
subscription-searcher.py): each received `newHeads` message is decoded
to a height and passed to `try_to_buy` unconditionally — there is no
comparison with any previously processed height.  Given the list of
delivered heights, returns the list of heights evaluated. -/
def get_event_run : List Int → List Int
  | [] => []
  | h :: rest => h :: get_event_run rest

/-! ## Helper lemmas -/

theorem entryResult_ne_ok_none (codec : Codec) (e : AbiEntry) (d : String) :
    entryResult codec e d ≠ .ok none := by
  unfold entryResult
  cases decode_matched_error codec e d <;> simp

theorem decodeLoop_append_of_not_match (sel : Selector) (codec : Codec)
    (l1 l2 : List AbiEntry) (d : String)
    (h : ∀ e ∈ l1, matchesSelector sel e d = false) :
    decodeLoop sel codec (l1 ++ l2) d = decodeLoop sel codec l2 d := by
  induction l1 with
  | nil => rfl
  | cons e rest ih =>
    have he : matchesSelector sel e d = false := h e (by simp)
    have ihr := ih (fun x hx => h x (by simp [hx]))
    simp [decodeLoop, he, ihr]

theorem decode_custom_error_append (sel : Selector) (codec : Codec)
    (pre rest : List AbiEntry) (d : String)
    (h : ∀ e ∈ pre, e.type_ = "error" → matchesSelector sel e d = false) :
    decode_custom_error sel codec (pre ++ rest) d
      = decode_custom_error sel codec rest d := by
  unfold decode_custom_error
  rw [List.filter_append]
  apply decodeLoop_append_of_not_match
  intro e he2
  have hm := List.mem_filter.mp he2
  exact h e hm.1 (by simpa using hm.2)

theorem decodeLoop_ok_none_iff (sel : Selector) (codec : Codec)
    (l : List AbiEntry) (d : String) :
    decodeLoop sel codec l d = .ok none ↔
      ∀ e ∈ l, matchesSelector sel e d = false := by
  induction l with
  | nil => simp [decodeLoop]
  | cons e rest ih =>
    by_cases hm : matchesSelector sel e d = true
    · simp only [decodeLoop, hm, if_true]
      constructor
      · intro hh
        exact absurd hh (entryResult_ne_ok_none codec e d)
      · intro hh
        exact absurd (hh e (by simp)) (by simp [hm])
    · have hm2 : matchesSelector sel e d = false := by
        cases hmm : matchesSelector sel e d
        · rfl
        · exact absurd hmm hm
      simp [decodeLoop, hm2, ih]

theorem pyTake_pyDrop_selector (s t : String) (h : s.data.length = 8) :
    pyTake (pyDrop ("0x" ++ s ++ t) 2) 8 = s := by
  apply String.ext
  show (("0x" ++ s ++ t).data.drop 2).take 8 = s.data
  rw [String.data_append, String.data_append]
  have h0x : ("0x" : String).data = ['0', 'x'] := rfl
  rw [h0x, List.append_assoc]
  rw [List.drop_left' (by rfl : (['0', 'x'] : List Char).length = 2)]
  exact List.take_left' h

theorem pyDrop_ten (s t : String) (h : s.data.length = 8) :
    pyDrop ("0x" ++ s ++ t) 10 = t := by
  apply String.ext
  show ("0x" ++ s ++ t).data.drop 10 = t.data
  rw [String.data_append, String.data_append]
  have h0x : ("0x" : String).data = ['0', 'x'] := rfl
  rw [h0x]
  exact List.drop_left' (by simp [h])

theorem matchesSelector_self (sel : Selector) (e : AbiEntry) (bs : List Nat)
    (h : (sel e).data.length = 8) :
    matchesSelector sel e ("0x" ++ sel e ++ hexEncode bs) = true := by
  unfold matchesSelector
  rw [pyTake_pyDrop_selector _ _ h]
  exact beq_self_eq_true _

theorem hexDigitVal_hexDigitChar : ∀ n, n < 16 → hexDigitVal (hexDigitChar n) = some n := by
  decide

theorem bytesFromHexAux_hexEncodeL (bs : List Nat) (h : ∀ b ∈ bs, b < 256) :
    bytesFromHexAux (hexEncodeL bs) = some bs := by
  induction bs with
  | nil => rfl
  | cons b rest ih =>
    have hb : b < 256 := h b (by simp)
    have h1 : b / 16 < 16 := Nat.div_lt_of_lt_mul (by omega)
    have h2 : b % 16 < 16 := Nat.mod_lt _ (by norm_num)
    have hrest := ih (fun x hx => h x (by simp [hx]))
    simp [hexEncodeL, bytesFromHexAux, hexDigitVal_hexDigitChar _ h1,
      hexDigitVal_hexDigitChar _ h2, hrest]
    omega

/-! ## Claim theorems -/

/-- Claim C1, counterexample: the subscription-driven engine of
flashbots-searcher.py (`get_event`) passes every delivered height to
`try_to_buy` with no comparison against a last-processed height, so the
delivered height sequence [100, 100, 101] yields three evaluation
cycles, not two — refuting the claim that every engine variant ignores a
height equal to the last-processed one. -/
theorem c1_counterexample :
    (get_event_run [100, 100, 101]).length = 3 ∧
      ¬(get_event_run [100, 100, 101]).length = 2 := by
  decide

/-- Claim C1, amended: in the polling engine of searcher.py a delivered
height equal to the current `state["height"]` runs no evaluation cycle,
and from the initial state 0 the sequence [100, 100, 101] yields exactly
the two cycles for 100 and 101; the subscription engine of
flashbots-searcher.py runs one cycle per delivered height, with no
dedup. -/
theorem c1_dedup_polling_only :
    (∀ (s : Int) (rest : List Int), searcher_run s (s :: rest) = searcher_run s rest) ∧
      searcher_run 0 [100, 100, 101] = [100, 101] ∧
      ∀ hs : List Int, get_event_run hs = hs := by
  refine ⟨?_, by decide, ?_⟩
  · intro s rest
    simp [searcher_run, searcher_loop_step]
  · intro hs
    induction hs with
    | nil => rfl
    | cons h rest ih => simp [get_event_run, ih]

/-- Claim C2, counterexample: under the PrivateRelay strategy a
structured (decodable) build failure does NOT merely get logged with the
loop continuing — `submit_flashbots` decodes it and calls `exit(1)`,
exactly like the Mempool path.  Concretely, with a selector map sending
every entry to "11223344" and a codec accepting the empty payload, a
`ContractCustomError` with data "0x11223344" during build makes the run
end in `exitCode 1`, which is not `cont`. -/
theorem c2_counterexample :
    (submit_flashbots "0xacc" 5 7 (fun _ => "11223344") (fun _ _ => Except.ok [])
        100 (FbBuildStep.custom "0x11223344") RelayStep.notFound).result
        = ProcResult.exitCode 1 ∧
      ProcResult.exitCode 1 ≠ ProcResult.cont := by
  decide

/-- Claim C2, amended: when simulation succeeded but the build fails
with a structured contract failure, the process terminates with nonzero
exit status under BOTH strategies: `submit_mempool` and
`submit_flashbots` both decode the failure and call `exit(1)` (and if
the decoding itself raises, the exception escapes uncaught, which also
terminates the process). -/
theorem c2_structured_build_failure_fatal_both (sender : String)
    (nonce mpf : Nat) (sel : Selector) (codec : Codec) (height : Int)
    (d : String) (relay : RelayStep) :
    terminates (submit_mempool sender nonce sel codec height (.custom d)).result = true ∧
      terminates (submit_flashbots sender nonce mpf sel codec height
        (.custom d) relay).result = true := by
  constructor <;>
    · simp only [submit_mempool, submit_flashbots]
      cases decode_custom_error sel codec conv_abi d <;> rfl

/-- Claim C3, counterexample: the decoder is not total on malformed
input.  With a selector map sending every entry to "11223344", the error
data "0x11223344xy" matches the first registered error, and
`bytes.fromhex("xy")` then raises `ValueError`, so `decode_custom_error`
raises instead of returning. -/
theorem c3_counterexample :
    decode_custom_error (fun _ => "11223344") (fun _ _ => Except.ok [])
        conv_abi "0x11223344xy" = Except.error "ValueError" := by
  rfl

/-- Claim C3, amended: the decoder returns `None` exactly when no
registered failure signature's selector matches characters 2..10 of the
error data (case-insensitively), and in that no-match case it never
raises; when a selector does match, the decoder may raise (malformed hex
tail, undecodable payload) instead of returning. -/
theorem c3_none_iff_no_match (sel : Selector) (codec : Codec)
    (abi : List AbiEntry) (d : String) :
    decode_custom_error sel codec abi d = .ok none ↔
      ∀ e ∈ abi, e.type_ = "error" → matchesSelector sel e d = false := by
  unfold decode_custom_error
  rw [decodeLoop_ok_none_iff]
  constructor
  · intro h e he ht
    exact h e (List.mem_filter.mpr ⟨he, by simp [ht]⟩)
  · intro h e he
    have hm := List.mem_filter.mp he
    exact h e hm.1 (by simpa using hm.2)

/-- Claim C4, counterexample: an exception raised during bundle
submission whose RPC error code is -32601 — not the claimed
'-32000'-equivalent outage — is not logged-and-survived: nothing catches
it (only `TransactionNotFound` from the receipt lookup is caught), so it
escapes `submit_flashbots` and terminates the process. -/
theorem c4_counterexample :
    (submit_flashbots "0xacc" 5 7 (fun _ => "11223344") (fun _ _ => Except.ok [])
        100 FbBuildStep.ok (RelayStep.raised (-32601) "method not found")).result
        = ProcResult.uncaught "method not found" ∧
      terminates (ProcResult.uncaught "method not found") = true := by
  decide

/-- Claim C4, amended: a PrivateRelay bundle not selected for its target
block (`TransactionNotFound` on the receipt lookup) yields a normal
return — the loop continues; but there is no '-32000'-specific handling
anywhere: every other exception raised during send/stats/wait/receipts,
whatever its error code, propagates uncaught and terminates the
process. -/
theorem c4_not_included_nonfatal (sender : String) (nonce mpf : Nat)
    (sel : Selector) (codec : Codec) (height : Int) (code : Int) (msg : String) :
    (submit_flashbots sender nonce mpf sel codec height .ok .notFound).result
        = .cont ∧
      (submit_flashbots sender nonce mpf sel codec height .ok
        (.raised code msg)).result = .uncaught msg := by
  constructor <;> rfl

/-- Claim C5: for every triggering height h, `submit_flashbots` sends a
one-transaction bundle with `target_block_number = height + 1`, which is
never the current height. -/
theorem c5_bundle_targets_next_height (sender : String) (nonce mpf : Nat)
    (sel : Selector) (codec : Codec) (height : Int) (relay : RelayStep) :
    (submit_flashbots sender nonce mpf sel codec height .ok relay).sent
        = some { txCount := 1, targetBlockNumber := height + 1 } ∧
      height + 1 ≠ height := by
  exact ⟨rfl, by omega⟩

/-- Claim C6, counterexample: when the simulated call fails with a
structured `ContractCustomError` whose selector matches no registry
entry, the reason is the decoder's `None` — the implementation does NOT
fall back to the raw message of the exception.  Here the selector map
sends every entry to "11223344", the error data is "0xdeadbeef", and the
raw message "raw revert message" is discarded. -/
theorem c6_counterexample :
    simulate_buy (fun _ => "11223344") (fun _ _ => Except.ok []) conv_abi
        (CallOutcome.contractCustomError "0xdeadbeef" "raw revert message")
        = Except.ok (SimResult.ineligible none) ∧
      (none : Option String) ≠ some "raw revert message" := by
  exact ⟨rfl, by decide⟩

/-- Claim C6, amended: the evaluator has four outcome classes: success
yields Eligible; a `ContractCustomError` yields Ineligible with reason
exactly the decoder's output — `None` when no signature matches, with no
fallback to the raw message; a `ContractLogicError` (revert without
custom error data) yields Ineligible with reason the raw message, not
"generic"; any other failure yields Ineligible with reason exactly
"generic". -/
theorem c6_classification (sel : Selector) (codec : Codec)
    (abi : List AbiEntry) (d m : String) (r : Option String)
    (hd : decode_custom_error sel codec abi d = .ok r) :
    simulate_buy sel codec abi .success = .ok .eligible ∧
      simulate_buy sel codec abi (.contractCustomError d m) = .ok (.ineligible r) ∧
      simulate_buy sel codec abi (.contractLogicError m) = .ok (.ineligible (some m)) ∧
      simulate_buy sel codec abi .otherError = .ok (.ineligible (some "generic")) := by
  refine ⟨rfl, ?_, rfl, rfl⟩
  simp only [simulate_buy, hd]

/-- Witness for `c6_classification` at a concrete input. -/
theorem c6_classification_witness :
    simulate_buy (fun _ => "11223344") (fun _ _ => Except.ok []) conv_abi
        CallOutcome.success = Except.ok SimResult.eligible ∧
      simulate_buy (fun _ => "11223344") (fun _ _ => Except.ok []) conv_abi
        (CallOutcome.contractCustomError "0x11223344" "m")
        = Except.ok (SimResult.ineligible (some "Transformer__SoftwareError()")) ∧
      simulate_buy (fun _ => "11223344") (fun _ _ => Except.ok []) conv_abi
        (CallOutcome.contractLogicError "m")
        = Except.ok (SimResult.ineligible (some "m")) ∧
      simulate_buy (fun _ => "11223344") (fun _ _ => Except.ok []) conv_abi
        CallOutcome.otherError
        = Except.ok (SimResult.ineligible (some "generic")) :=
  c6_classification (fun _ => "11223344") (fun _ _ => Except.ok []) conv_abi
    "0x11223344" "m" (some "Transformer__SoftwareError()") (by rfl)

/-- Claim C7, counterexample: the Mempool build of flashbots-searcher.py
sets NO fee parameters at all — the `maxFeePerGas` / `maxPriorityFeePerGas`
lines are commented out in the source — so the built request carries no
fixed conservative fees. -/
theorem c7_counterexample :
    (submit_mempool "0xacc" 5 (fun _ => "11223344") (fun _ _ => Except.ok [])
        100 MempoolStep.sent).request.maxFeePerGas = none ∧
      (submit_mempool "0xacc" 5 (fun _ => "11223344") (fun _ _ => Except.ok [])
        100 MempoolStep.sent).request.maxPriorityFeePerGas = none := by
  exact ⟨rfl, rfl⟩

/-- Claim C7, amended: in the dual-path variant, the Mempool strategy
sets no explicit fee parameters (both fee fields are absent — the
conservative fixed fees are commented out, leaving provider defaults),
while the PrivateRelay strategy sets the fixed `to_wei(400, "gwei")` max
fee and a priority fee equal to the network's suggested
`max_priority_fee` plus `to_wei(10, "gwei")`. -/
theorem c7_fee_policy (sender : String) (nonce mpf : Nat) (sel : Selector)
    (codec : Codec) (height : Int) (mstep : MempoolStep)
    (build : FbBuildStep) (relay : RelayStep) :
    (submit_mempool sender nonce sel codec height mstep).request
        = { sender := sender, nonce := nonce
            maxFeePerGas := none, maxPriorityFeePerGas := none } ∧
      (submit_flashbots sender nonce mpf sel codec height build relay).request
        = { sender := sender, nonce := nonce
            maxFeePerGas := some (to_wei_gwei 400)
            maxPriorityFeePerGas := some (mpf + to_wei_gwei 10) } := by
  constructor
  · rfl
  · cases build <;> rfl

/-- Claim C8: decoding an error data formed by a registered signature's
own 4-byte selector followed by its ABI-encoded parameters returns
`name(param1,param2,...)` with the original name and the decoded
parameter values; in particular a parameterless registered failure named
N decodes to exactly "N()" (see the witness). -/
theorem c8_roundtrip (sel : Selector) (codec : Codec) (pre post : List AbiEntry)
    (e : AbiEntry) (bs : List Nat) (vals : List PyValue)
    (hlen : (sel e).data.length = 8)
    (he : e.type_ = "error")
    (hbytes : ∀ b ∈ bs, b < 256)
    (hcodec : codec e.inputs bs = .ok vals)
    (hpre : ∀ e2 ∈ pre, e2.type_ = "error" →
      matchesSelector sel e2 ("0x" ++ sel e ++ hexEncode bs) = false) :
    decode_custom_error sel codec (pre ++ e :: post) ("0x" ++ sel e ++ hexEncode bs)
      = .ok (some (e.name ++ "(" ++ String.intercalate "," (vals.map pyStr) ++ ")")) := by
  rw [decode_custom_error_append sel codec pre (e :: post) _ hpre]
  unfold decode_custom_error
  have hf : (e :: post).filter (fun a => a.type_ == "error")
      = e :: post.filter (fun a => a.type_ == "error") := by
    simp [List.filter_cons, he]
  rw [hf]
  unfold decodeLoop
  rw [matchesSelector_self sel e bs hlen]
  simp only [if_true]
  unfold entryResult decode_matched_error
  rw [pyDrop_ten (sel e) (hexEncode bs) hlen]
  have hbf : bytesFromHex (hexEncode bs) = some bs :=
    bytesFromHexAux_hexEncodeL bs hbytes
  rw [hbf]
  simp [hcodec]

/-- Witness for `c8_roundtrip`: the spec scenario — a parameterless
registered failure `Something__WrongHeight` decodes its own encoded
failure to exactly "Something__WrongHeight()". -/
theorem c8_roundtrip_witness :
    decode_custom_error (fun _ => "01020304")
        (fun ts bsx => if ts = [] ∧ bsx = [] then Except.ok [] else Except.error "codec")
        ([] ++ (⟨"error", "Something__WrongHeight", []⟩ : AbiEntry) :: [])
        ("0x" ++ "01020304" ++ hexEncode [])
      = Except.ok (some ("Something__WrongHeight" ++ "("
          ++ String.intercalate "," (([] : List PyValue).map pyStr) ++ ")")) :=
  c8_roundtrip (fun _ => "01020304")
    (fun ts bsx => if ts = [] ∧ bsx = [] then Except.ok [] else Except.error "codec")
    [] [] ⟨"error", "Something__WrongHeight", []⟩ [] []
    (by decide) rfl (by simp) (by rfl) (by simp)

/-- Claim C9: in the dual-path variant the simulated call, the Mempool
build and the PrivateRelay build all invoke `buy` with `height - 1`. -/
theorem c9_buy_arg_agreement (sender : String) (nonce mpf : Nat) (sel : Selector)
    (codec : Codec) (height : Int) (use_mempool : Bool) (callOut : CallOutcome)
    (mstep : MempoolStep) (build : FbBuildStep) (relay : RelayStep) :
    (try_to_buy sender nonce mpf sel codec height use_mempool callOut
        mstep build relay).simArg = height - 1 ∧
      (submit_mempool sender nonce sel codec height mstep).buyArg = height - 1 ∧
      (submit_flashbots sender nonce mpf sel codec height build relay).buyArg
        = height - 1 := by
  refine ⟨?_, rfl, ?_⟩
  · unfold try_to_buy
    cases hs : simulate_buy sel codec conv_abi callOut with
    | error m => simp
    | ok r =>
      cases r with
      | eligible => by_cases hu : use_mempool <;> simp [hu]
      | ineligible r2 => simp
  · cases build <;> rfl

/-- Claim C10: the decoder scans the registered error entries in
registry order; the first entry whose selector matches the data's
characters 2..10 under case-insensitive comparison determines the whole
result, and the entries after it — including any that share the same
selector — are never consulted. -/
theorem c10_first_match (sel : Selector) (codec : Codec) (pre post : List AbiEntry)
    (e : AbiEntry) (d : String)
    (hpre : ∀ e2 ∈ pre, e2.type_ = "error" → matchesSelector sel e2 d = false)
    (he : e.type_ = "error")
    (hm : matchesSelector sel e d = true) :
    decode_custom_error sel codec (pre ++ e :: post) d = entryResult codec e d := by
  rw [decode_custom_error_append sel codec pre (e :: post) d hpre]
  unfold decode_custom_error
  have hf : (e :: post).filter (fun a => a.type_ == "error")
      = e :: post.filter (fun a => a.type_ == "error") := by
    simp [List.filter_cons, he]
  rw [hf]
  unfold decodeLoop
  simp [hm]

/-- Witness for `c10_first_match`: two registered errors sharing one
selector — the first wins, the second is never consulted. -/
theorem c10_first_match_witness :
    decode_custom_error (fun _ => "11223344") (fun _ _ => Except.ok [])
        ([] ++ (⟨"error", "Duplicate__First", []⟩ : AbiEntry)
          :: [⟨"error", "Duplicate__Second", []⟩]) "0x11223344"
      = entryResult (fun _ _ => Except.ok [])
          ⟨"error", "Duplicate__First", []⟩ "0x11223344" :=
  c10_first_match (fun _ => "11223344") (fun _ _ => Except.ok []) []
    [⟨"error", "Duplicate__Second", []⟩] ⟨"error", "Duplicate__First", []⟩
    "0x11223344" (by simp) rfl (by decide)
